/-
Verification development for the RadiaCode track-viewer repository
(src/RadiaCodeMapViewer/RadiaCodeMapViewer2.py, with the parser also present
in src/RadiaCodeMapViewer/RadiaCodeMapViewer.py).

The Python program is a single-threaded PyQt application.  Its pipeline is
embedded shallowly:

  * `Sample`, `MapState` mirror the fields of `MapWindow` that the pipeline
    reads and writes (widget values such as the two sliders, the two
    date-time edits and the two drop-downs are fields of the state, since
    `update_display` reads them directly).  Pure UI plumbing (labels,
    buttons, file paths, debug prints) is not part of the state.
  * floats are modelled as `ℚ`, timestamps as `Int` (only their order is
    used by the program).
  * `map.html` written by folium is modelled as the structured artifact
    `MapArtifact` (markers + legend + center/zoom); an early `return`
    before `map_object.save` leaves the previous artifact in place, which
    is modelled by not changing the `mapArtifact` field.
  * the matplotlib named colormap is an external continuous palette,
    modelled as an arbitrary function `String → ℚ → Color` (position in
    [0,1] to RGB); `branca.colormap.LinearColormap` (the function actually
    applied to marker values in `load_map`) is embedded as
    `linearColormapAt` following its source: clamp at the first/last index
    position, otherwise piecewise-linear interpolation between stops.
  * `pd.read_csv(..., sep="\t", skiprows=1)` + column projection + dropna
    + `pd.to_datetime` are embedded over an abstract list of lines, each a
    list of `Field`s (a cell is either missing/NaN or a value carrying its
    text, its datetime-parse result and its numeric value).  Files whose
    numeric columns contain non-numeric text are outside the model.
  * every fallible operation returns `Option`; `None`/`except` paths of the
    Python are `none`.
-/
import Mathlib

namespace RadiaCode

/-- The two metrics offered by the `display_field_dropdown`. -/
inductive Metric
  | DoseRate
  | CountRate
deriving DecidableEq, Repr

/-- One validated track row (DataFrame row after parsing). -/
structure Sample where
  time : Int
  latitude : ℚ
  longitude : ℚ
  doseRate : ℚ
  countRate : ℚ
deriving DecidableEq, Repr

/-- `row[metric]` for the selected metric column. -/
def Sample.metricValue (s : Sample) : Metric → ℚ
  | Metric.DoseRate => s.doseRate
  | Metric.CountRate => s.countRate

/-- The display name of a metric (the dropdown text). -/
def metricName : Metric → String
  | Metric.DoseRate => "DoseRate"
  | Metric.CountRate => "CountRate"

/-- `self.metricUnits`, exactly as spelled in the source file. -/
def metricUnits : Metric → String
  | Metric.DoseRate => "ÂµSv/h"
  | Metric.CountRate => "cps"

/-- An RGB color with rational channels (a matplotlib RGBA color with the
alpha channel elided: the program only ever converts colors to RGB hex). -/
structure Color where
  r : ℚ
  g : ℚ
  b : ℚ
deriving DecidableEq, Repr

/-- The branca colorbar added to the map: its 256 stop colors, its value
range and its caption. -/
structure Legend where
  stops : List Color
  vmin : ℚ
  vmax : ℚ
  caption : String
deriving DecidableEq, Repr

/-- One `folium.CircleMarker` of the rendered map. -/
structure Marker where
  lat : ℚ
  lon : ℚ
  radius : Nat
  color : Color
  value : ℚ
  time : Int
deriving DecidableEq, Repr

/-- The rendered `map.html`, as structured data. -/
structure MapArtifact where
  centerLat : ℚ
  centerLon : ℚ
  zoom : Nat
  markers : List Marker
  legend : Option Legend
deriving DecidableEq, Repr

/-- The messages `update_display`/`load_map` print when they bail out.
`invalidSliderRange` and `degenerateRange` print the same text in the
source ("Error: Minimum color value must be less than the maximum."); they
are distinguished here only by where they occur. -/
inductive UpdateMsg
  | invalidSliderRange
  | emptyView
  | degenerateRange
deriving DecidableEq, Repr

/-- The pipeline-relevant mutable fields of `MapWindow`.  The last six
fields are the current values of the input widgets (dropdowns, date-time
edits, sliders); `update_display` reads them and copies some of them into
the non-widget fields. -/
structure MapState where
  currentColormapName : String
  loadedData : Option (List Sample)
  filteredData : Option (List Sample)
  mapArtifact : Option MapArtifact
  startTime : Option Int
  stopTime : Option Int
  minTime : Option Int
  maxTime : Option Int
  minDoseRate : Option ℚ
  maxDoseRate : Option ℚ
  minCountRate : Option ℚ
  maxCountRate : Option ℚ
  rangeDoseRate : Option ℚ
  rangeCountRate : Option ℚ
  setAbsoluteMin : Option ℚ
  setAbsoluteMax : Option ℚ
  setAbsoluteRange : Option ℚ
  metricSelected : Metric
  displayFieldDropdown : Metric
  colormapDropdown : String
  startTimeEdit : Int
  stopTimeEdit : Int
  colorMinSlider : Nat
  colorMaxSlider : Nat
deriving DecidableEq, Repr

/-- `pandas` column min (`Series.min()`), i.e. the fold of `min` over the
column; `none` on an empty column (where pandas would yield NaN). -/
def listMin {α : Type} [Min α] : List α → Option α
  | [] => none
  | x :: xs => some (xs.foldl min x)

/-- `pandas` column max (`Series.max()`). -/
def listMax {α : Type} [Max α] : List α → Option α
  | [] => none
  | x :: xs => some (xs.foldl max x)

/-- `pandas` column mean (`Series.mean()`): sum divided by length. -/
def qMean (l : List ℚ) : ℚ := l.foldl (fun a x => a + x) 0 / l.length

/-- `np.linspace a b n`: `a + (b - a) * i / (n - 1)` for `i < n`.  The same
formula gives the index positions of a `branca.colormap.LinearColormap`
built without an explicit index. -/
def linspace (a b : ℚ) (n : Nat) : List ℚ :=
  (List.range n).map (fun (i : Nat) => a + (b - a) * (i : ℚ) / ((n : ℚ) - 1))

/-- `matplotlib.colors.Normalize(vmin, vmax)` applied to a value
(`clip=False`, the default): plain linear normalization. -/
def normalizeQ (vmin vmax v : ℚ) : ℚ := (v - vmin) / (vmax - vmin)

/-- The 256 stop colors `load_map` samples from the named palette:
`[colormap(norm(value)) for value in np.linspace(metric_min, metric_max, 256)]`. -/
def colorStops (paletteOf : String → ℚ → Color) (name : String) (vmin vmax : ℚ) :
    List Color :=
  (linspace vmin vmax 256).map (fun v => paletteOf name (normalizeQ vmin vmax v))

/-- `branca.colormap.LinearColormap.__call__` on the given stops over
`[vmin, vmax]`: values at or below the first index position get the first
stop color, values at or beyond the last index position get the last stop
color, interior values are linearly interpolated between the two
surrounding stops.  The `getD`/`headD` defaults model the index error
branca would raise on an empty stop list; `load_map` always passes 256
stops, so they are unreachable. -/
def linearColormapAt (stops : List Color) (vmin vmax : ℚ) (x : ℚ) : Color :=
  let index := linspace vmin vmax stops.length
  let black : Color := ⟨0, 0, 0⟩
  let i0 := (index.head?).getD 0
  let iN := (index.getLast?).getD 0
  if x ≤ i0 then (stops.head?).getD black
  else if iN ≤ x then (stops.getLast?).getD black
  else
    let i := (index.filter (fun u => decide (u < x))).length
    let u1 := index.getD (i - 1) 0
    let u2 := index.getD i 0
    let p := (x - u1) / (u2 - u1)
    let d1 := stops.getD (i - 1) black
    let d2 := stops.getD i black
    { r := (1 - p) * d1.r + p * d2.r,
      g := (1 - p) * d1.g + p * d2.g,
      b := (1 - p) * d1.b + p * d2.b }

/-- The time filter used by both `update_display` (line 320) and
`show_time_plot` (line 357): keep the samples whose time is within the
window, both bounds inclusive, in their original order. -/
def timeFilter (xs : List Sample) (a b : Int) : List Sample :=
  xs.filter (fun s => decide (a ≤ s.time) && decide (s.time ≤ b))

/-- `MapWindow.load_map`.  `capMetric` is `self.metricSelected` (used for
the caption), `metric` the `metric` parameter (used for the values); the
`color_map` parameter of the Python function is ignored by its body (it
uses `self.current_colormap_name`, here `colormapName`) and is therefore
not a parameter here.  Returns `some` artifact when the map is saved, and
`none` on the early `return` (the degenerate-range error), in which case
the previous `map.html` stays in place.  When `colorRange` is `none` the
range is taken from the data; on an empty data list pandas would produce
NaN there, modelled as `none` (unreachable from the GUI paths, which
filter out the empty case first). -/
def loadMap (paletteOf : String → ℚ → Color) (colormapName : String)
    (capMetric : Metric) (lat lon : ℚ) (zoom : Nat) (data : Option (List Sample))
    (metric : Metric) (colorRange : Option (ℚ × ℚ)) : Option MapArtifact :=
  match data with
  | none => some { centerLat := lat, centerLon := lon, zoom := zoom,
                   markers := [], legend := none }
  | some rows =>
    let mm : Option (ℚ × ℚ) :=
      match colorRange with
      | some r => some r
      | none =>
        match listMin (rows.map (fun s => s.metricValue metric)),
              listMax (rows.map (fun s => s.metricValue metric)) with
        | some a, some b => some (a, b)
        | _, _ => none
    match mm with
    | none => none
    | some (metricMin, metricMax) =>
      if metricMax ≤ metricMin then none
      else
        let stops := colorStops paletteOf colormapName metricMin metricMax
        let legend : Legend :=
          { stops := stops, vmin := metricMin, vmax := metricMax,
            caption := metricName capMetric ++ " [" ++ metricUnits capMetric ++ "]" }
        let markers := rows.map (fun s =>
          { lat := s.latitude, lon := s.longitude, radius := 5,
            color := linearColormapAt stops metricMin metricMax (s.metricValue metric),
            value := s.metricValue metric, time := s.time : Marker })
        some { centerLat := lat, centerLon := lon, zoom := zoom,
               markers := markers, legend := some legend }

/-- `MapWindow.update_display`.  Returns the new state together with the
message printed when the update bails out (`none` when a map was rendered,
or when there is no loaded data at all).  Mirrors the source order: copy
the two dropdowns into the state, check the relative slider values, map
them affinely through `setAbsoluteRange`/`setAbsoluteMin` (which
`select_file` computed for the metric selected at load time), record the
widget time window, filter, bail out on an empty filtered view, otherwise
re-render.  The fallback branch of the inner match models the
`AttributeError` Python would raise if `setAbsoluteMin`/`setAbsoluteRange`
were read before any load; it is unreachable because `select_file` sets
them whenever it sets `loaded_data`. -/
def updateDisplay (paletteOf : String → ℚ → Color) (st : MapState) :
    MapState × Option UpdateMsg :=
  match st.loadedData with
  | none => (st, none)
  | some data =>
    let st1 : MapState :=
      { st with metricSelected := st.displayFieldDropdown,
                currentColormapName := st.colormapDropdown }
    if st1.colorMaxSlider ≤ st1.colorMinSlider then
      (st1, some UpdateMsg.invalidSliderRange)
    else
      match st1.setAbsoluteRange, st1.setAbsoluteMin with
      | some rng, some amin =>
        let sliderMinAbs : ℚ := (st1.colorMinSlider : ℚ) / 100 * rng + amin
        let sliderMaxAbs : ℚ := (st1.colorMaxSlider : ℚ) / 100 * rng + amin
        let filtered := timeFilter data st1.startTimeEdit st1.stopTimeEdit
        let st2 : MapState :=
          { st1 with startTime := some st1.startTimeEdit,
                     stopTime := some st1.stopTimeEdit,
                     filteredData := some filtered }
        if filtered.isEmpty then
          (st2, some UpdateMsg.emptyView)
        else
          match loadMap paletteOf st2.currentColormapName st2.metricSelected
              (qMean (filtered.map Sample.latitude))
              (qMean (filtered.map Sample.longitude))
              12 (some filtered) st2.metricSelected
              (some (sliderMinAbs, sliderMaxAbs)) with
          | some art => ({ st2 with mapArtifact := some art }, none)
          | none => (st2, some UpdateMsg.degenerateRange)
      | _, _ => (st1, none)

/-- The body of `MapWindow.select_file` after a successful parse, up to
(but not including) its final `self.update_display()` call: concatenate
the new samples after the already loaded ones, recompute all extrema over
the full accumulated sequence, derive the absolute window of the metric
selected at this moment, and move the two date-time edits to the full time
range.  The fallback branch models the NaN-poisoned state pandas would
produce when the accumulated data is empty (no row ever parsed); it is
degenerate there (`int(nan.timestamp())` raises) and unreachable for the
claims, which concern non-empty loads. -/
def selectFileLoad (st : MapState) (parsed : List Sample) : MapState :=
  let newData : List Sample :=
    match st.loadedData with
    | none => parsed
    | some old => old ++ parsed
  match listMin (newData.map Sample.time), listMax (newData.map Sample.time),
        listMin (newData.map Sample.doseRate), listMax (newData.map Sample.doseRate),
        listMin (newData.map Sample.countRate), listMax (newData.map Sample.countRate) with
  | some minT, some maxT, some minD, some maxD, some minC, some maxC =>
    let rD := maxD - minD
    let rC := maxC - minC
    let aMin := match st.metricSelected with
      | Metric.DoseRate => minD
      | Metric.CountRate => minC
    let aMax := match st.metricSelected with
      | Metric.DoseRate => maxD
      | Metric.CountRate => maxC
    let aRng := match st.metricSelected with
      | Metric.DoseRate => rD
      | Metric.CountRate => rC
    { st with loadedData := some newData,
              minTime := some minT, maxTime := some maxT,
              minDoseRate := some minD, maxDoseRate := some maxD,
              minCountRate := some minC, maxCountRate := some maxC,
              rangeDoseRate := some rD, rangeCountRate := some rC,
              setAbsoluteMin := some aMin, setAbsoluteMax := some aMax,
              setAbsoluteRange := some aRng,
              startTimeEdit := minT, stopTimeEdit := maxT }
  | _, _, _, _, _, _ => st

/-- `MapWindow.select_file` on a successfully parsed file: the load step
followed by the `self.update_display()` call at its end. -/
def selectFile (paletteOf : String → ℚ → Color) (st : MapState)
    (parsed : List Sample) : MapState × Option UpdateMsg :=
  updateDisplay paletteOf (selectFileLoad st parsed)

/-- `MapWindow.clear_data`: drop the dataset, move both date-time edits to
the current time, and re-render via `load_map()` with all defaults (which
renders the bare basemap).  Nothing else is touched: in particular the two
sliders keep their positions. -/
def clearData (paletteOf : String → ℚ → Color) (st : MapState) (now : Int) :
    MapState :=
  let st1 : MapState := { st with loadedData := none,
                                  startTimeEdit := now, stopTimeEdit := now }
  match loadMap paletteOf st1.currentColormapName st1.metricSelected 0 0 2
      none Metric.DoseRate none with
  | some art => { st1 with mapArtifact := some art }
  | none => st1

/-- `TimePlotWindow.plot_data`: `px.line(data, x="Time", y=metric)` charts
the rows in the order they appear in the frame; the series is the list of
(time, metric value) pairs in that order. -/
def plotData (data : List Sample) (metric : Metric) : List (Int × ℚ) :=
  data.map (fun s => (s.time, s.metricValue metric))

/-- `MapWindow.show_time_plot`: filter the loaded data by the widget time
window (both bounds inclusive), bail out on an empty result, otherwise
chart the filtered rows with the currently selected metric. -/
def showTimePlot (st : MapState) : Option (List (Int × ℚ)) :=
  match st.loadedData with
  | none => none
  | some data =>
    let filtered := timeFilter data st.startTimeEdit st.stopTimeEdit
    if filtered.isEmpty then none
    else some (plotData filtered st.metricSelected)

/-- One cell of the tab-separated file as `pd.read_csv` sees it: either
missing (empty field, NaN) or a value carrying its text (used when the
cell sits in the header line), its `pd.to_datetime` result (`none` when
the text is not a parseable datetime) and its numeric value. -/
inductive Field
  | na
  | cell (text : String) (timeVal : Option Int) (numVal : ℚ)
deriving DecidableEq, Repr

/-- One line of the file. -/
abbrev RawLine := List Field

/-- The column name a header cell contributes. -/
def fieldName : Field → Option String
  | Field.na => none
  | Field.cell t _ _ => some t

/-- The `pd.to_datetime` result of a cell. -/
def fieldTime : Field → Option Int
  | Field.na => none
  | Field.cell _ t _ => t

/-- The numeric value of a cell (only read on cells that passed the
completeness check, so the `na` value is never used). -/
def fieldNum : Field → ℚ
  | Field.na => 0
  | Field.cell _ _ q => q

/-- The position of a named column in the header line (case-sensitive,
first occurrence), `none` when the column is absent. -/
def colIdx (header : RawLine) (name : String) : Option Nat :=
  header.findIdx? (fun f => fieldName f == some name)

/-- A data row projected to the five required columns, in the order
`Time, Latitude, Longitude, DoseRate, CountRate`; a cell beyond the end of
the line is NaN, as in pandas. -/
abbrev Row5 := Field × Field × Field × Field × Field

/-- Project one raw line through the five column positions. -/
def projectRow (r : RawLine) (iT iLa iLo iD iC : Nat) : Row5 :=
  (r.getD iT Field.na, r.getD iLa Field.na, r.getD iLo Field.na,
   r.getD iD Field.na, r.getD iC Field.na)

/-- The `dropna` test: all five projected cells are present. -/
def rowComplete : Row5 → Bool
  | (t, la, lo, d, c) =>
    !(t == Field.na) && !(la == Field.na) && !(lo == Field.na) &&
    !(d == Field.na) && !(c == Field.na)

/-- Convert the kept rows to samples: `pd.to_datetime` is applied to the
whole Time column, so a single unparseable time makes the whole conversion
(and hence the whole parse) fail. -/
def rowsToSamples : List Row5 → Option (List Sample)
  | [] => some []
  | (t, la, lo, d, c) :: rest =>
    match fieldTime t with
    | none => none
    | some tv =>
      match rowsToSamples rest with
      | none => none
      | some ss =>
        some ({ time := tv, latitude := fieldNum la, longitude := fieldNum lo,
                doseRate := fieldNum d, countRate := fieldNum c } :: ss)

/-- `MapWindow.parse_rctrk_file` (the `RadiaCodeMapViewer2.py` version;
the `RadiaCodeMapViewer.py` version differs only in not converting Time).
The argument is `none` when the file cannot be opened.  `skiprows=1`
discards exactly the first line; the next line is the header; the column
projection `data[[...]]` raises `KeyError` — caught, returning `None` — as
soon as ANY of the five required columns is missing; `dropna` silently
drops the incomplete rows; `pd.to_datetime` fails the whole parse on an
unparseable remaining time.  A file with fewer than two lines makes
`read_csv` raise (`EmptyDataError`), also caught. -/
def parse_rctrk_file (file : Option (List RawLine)) : Option (List Sample) :=
  match file with
  | none => none
  | some [] => none
  | some [_] => none
  | some (_ :: header :: dataRows) =>
    match colIdx header "Time", colIdx header "Latitude",
          colIdx header "Longitude", colIdx header "DoseRate",
          colIdx header "CountRate" with
    | some iT, some iLa, some iLo, some iD, some iC =>
      rowsToSamples
        ((dataRows.map (fun r => projectRow r iT iLa iLo iD iC)).filter rowComplete)
    | _, _, _, _, _ => none

/-- The (vmin, vmax) range of the legend of a rendered artifact — the
absolute value window the renderer actually used for color mapping. -/
def legendRange (a : Option MapArtifact) : Option (ℚ × ℚ) :=
  a.bind (fun art => art.legend.map (fun l => (l.vmin, l.vmax)))

/-! ### Concrete palettes, samples, states and files used by the
counterexamples and witnesses -/

/-- A constant black palette (a legitimate continuous palette). -/
def cpal : String → ℚ → Color := fun _ _ => ⟨0, 0, 0⟩

/-- A palette whose red channel is the position, so that distinct
positions give distinct colors. -/
def palW : String → ℚ → Color := fun _ t => ⟨t, 0, 0⟩

/-- The pipeline-relevant state right after `MapWindow.__init__` (with the
initial bare-basemap render elided: `mapArtifact := none`). -/
def baseState : MapState :=
  { currentColormapName := "viridis", loadedData := none, filteredData := none,
    mapArtifact := none, startTime := none, stopTime := none,
    minTime := none, maxTime := none, minDoseRate := none, maxDoseRate := none,
    minCountRate := none, maxCountRate := none,
    rangeDoseRate := none, rangeCountRate := none,
    setAbsoluteMin := none, setAbsoluteMax := none, setAbsoluteRange := none,
    metricSelected := Metric.DoseRate, displayFieldDropdown := Metric.DoseRate,
    colormapDropdown := "viridis", startTimeEdit := 0, stopTimeEdit := 0,
    colorMinSlider := 0, colorMaxSlider := 100 }

/-- Sample at time 0 with DoseRate 1, CountRate 10. -/
def sA : Sample := ⟨0, 0, 0, 1, 10⟩

/-- Sample at time 10 with DoseRate 3, CountRate 50. -/
def sB : Sample := ⟨10, 0, 0, 3, 50⟩

/-- Sample at time 2, DoseRate 3, CountRate 30. -/
def sT2 : Sample := ⟨2, 0, 0, 3, 30⟩

/-- Sample at time 1, DoseRate 7, CountRate 70. -/
def sT1 : Sample := ⟨1, 0, 0, 7, 70⟩

/-- State after loading a file with samples `sA, sB` while DoseRate was the
selected metric, then switching the metric dropdown to CountRate and the
sliders to the relative positions (30, 70). -/
def stC1 : MapState :=
  { selectFileLoad baseState [sA, sB] with
    displayFieldDropdown := Metric.CountRate,
    colorMinSlider := 30, colorMaxSlider := 70 }

/-- State with one loaded sample (time 0), a recorded time window (0, 10),
and the time-edit widgets moved to the reversed window (20, 3). -/
def stC2 : MapState :=
  { baseState with
    loadedData := some [sA],
    startTime := some 0, stopTime := some 10,
    setAbsoluteMin := some 1, setAbsoluteMax := some 3, setAbsoluteRange := some 2,
    startTimeEdit := 20, stopTimeEdit := 3 }

/-- A marker, as rendered by some previous cycle. -/
def mk1 : Marker := ⟨0, 0, 5, ⟨0, 0, 0⟩, 1, 0⟩

/-- A previously rendered artifact that does carry a marker. -/
def prevArt : MapArtifact := ⟨0, 0, 12, [mk1], none⟩

/-- State with one loaded sample at time 0, a previously rendered non-bare
artifact, and a valid (start < stop) time window (10, 20) containing no
sample. -/
def stC8 : MapState :=
  { baseState with
    loadedData := some [sA],
    mapArtifact := some prevArt,
    setAbsoluteMin := some 1, setAbsoluteMax := some 3, setAbsoluteRange := some 2,
    startTimeEdit := 10, stopTimeEdit := 20 }

/-- State with loaded data and the sliders moved to (30, 70). -/
def stC6 : MapState :=
  { baseState with
    loadedData := some [sA],
    colorMinSlider := 30, colorMaxSlider := 70 }

/-- State whose loaded data is not chronologically ordered (times 2, 1), as
after loading two files out of order. -/
def stC9 : MapState :=
  { baseState with
    loadedData := some [sT2, sT1],
    startTimeEdit := 0, stopTimeEdit := 10 }

/-- State whose loaded data is chronologically ordered (times 1, 2). -/
def stC9s : MapState :=
  { baseState with
    loadedData := some [sT1, sT2],
    startTimeEdit := 0, stopTimeEdit := 10 }

/-- Header line containing four of the five required columns (CountRate is
missing). -/
def hdrA : RawLine :=
  [Field.cell "Time" none 0, Field.cell "Latitude" none 0,
   Field.cell "Longitude" none 0, Field.cell "DoseRate" none 0]

/-- A data row for `hdrA`. -/
def rowA : RawLine :=
  [Field.cell "2024-01-01 10:00:00" (some 100) 0, Field.cell "1" none 1,
   Field.cell "2" none 2, Field.cell "3" none 3]

/-- A file (preamble line, header missing one column, one good row). -/
def fileA : List RawLine := [[], hdrA, rowA]

/-- Header line containing all five required columns. -/
def hdrB : RawLine :=
  [Field.cell "Time" none 0, Field.cell "Latitude" none 0,
   Field.cell "Longitude" none 0, Field.cell "DoseRate" none 0,
   Field.cell "CountRate" none 0]

/-- A complete data row whose Time parses (to 100). -/
def rowGood : RawLine :=
  [Field.cell "2024-01-01 10:00:00" (some 100) 0, Field.cell "1" none 1,
   Field.cell "2" none 2, Field.cell "3" none 3, Field.cell "4" none 4]

/-- A complete data row whose Time text does not parse as a datetime. -/
def rowBadTime : RawLine :=
  [Field.cell "garbage" none 0, Field.cell "1" none 1,
   Field.cell "2" none 2, Field.cell "3" none 3, Field.cell "4" none 4]

/-- A row with a missing Latitude field. -/
def rowMissingLat : RawLine :=
  [Field.cell "2024-01-01 11:00:00" (some 200) 0, Field.na,
   Field.cell "2" none 2, Field.cell "3" none 3, Field.cell "4" none 4]

/-- A file with all columns, one good row and one bad-time row. -/
def fileB : List RawLine := [[], hdrB, rowGood, rowBadTime]

/-- A file with all columns, one good row and one incomplete row. -/
def fileC : List RawLine := [[], hdrB, rowGood, rowMissingLat]

/-- State with one loaded sample, as produced by a first load. -/
def stA3 : MapState := selectFileLoad baseState [sA]

/-! ### Helper lemmas -/

theorem foldl_min_le {α : Type} [LinearOrder α] (xs : List α) (x : α) :
    xs.foldl min x ≤ x ∧ ∀ y ∈ xs, xs.foldl min x ≤ y := by
  induction xs generalizing x with
  | nil => simp
  | cons a as ih =>
    simp only [List.foldl_cons]
    refine ⟨le_trans (ih (min x a)).1 (min_le_left x a), ?_⟩
    intro y hy
    rcases List.mem_cons.1 hy with rfl | hmem
    · exact le_trans (ih (min x y)).1 (min_le_right x y)
    · exact (ih (min x a)).2 y hmem

theorem foldl_min_mem {α : Type} [LinearOrder α] (xs : List α) (x : α) :
    xs.foldl min x = x ∨ xs.foldl min x ∈ xs := by
  induction xs generalizing x with
  | nil => simp
  | cons a as ih =>
    simp only [List.foldl_cons]
    rcases ih (min x a) with h | h
    · rcases min_choice x a with hc | hc
      · exact Or.inl (h.trans hc)
      · exact Or.inr (by rw [h, hc]; exact List.mem_cons_self a as)
    · exact Or.inr (List.mem_cons_of_mem a h)

theorem foldl_max_le {α : Type} [LinearOrder α] (xs : List α) (x : α) :
    x ≤ xs.foldl max x ∧ ∀ y ∈ xs, y ≤ xs.foldl max x := by
  induction xs generalizing x with
  | nil => simp
  | cons a as ih =>
    simp only [List.foldl_cons]
    refine ⟨le_trans (le_max_left x a) (ih (max x a)).1, ?_⟩
    intro y hy
    rcases List.mem_cons.1 hy with rfl | hmem
    · exact le_trans (le_max_right x y) (ih (max x y)).1
    · exact (ih (max x a)).2 y hmem

theorem foldl_max_mem {α : Type} [LinearOrder α] (xs : List α) (x : α) :
    xs.foldl max x = x ∨ xs.foldl max x ∈ xs := by
  induction xs generalizing x with
  | nil => simp
  | cons a as ih =>
    simp only [List.foldl_cons]
    rcases ih (max x a) with h | h
    · rcases max_choice x a with hc | hc
      · exact Or.inl (h.trans hc)
      · exact Or.inr (by rw [h, hc]; exact List.mem_cons_self a as)
    · exact Or.inr (List.mem_cons_of_mem a h)

theorem listMin_spec {α : Type} [LinearOrder α] (l : List α) (h : l ≠ []) :
    ∃ m, listMin l = some m ∧ m ∈ l ∧ ∀ y ∈ l, m ≤ y := by
  cases l with
  | nil => exact absurd rfl h
  | cons x xs =>
    refine ⟨xs.foldl min x, rfl, ?_, ?_⟩
    · rcases foldl_min_mem xs x with h1 | h1
      · rw [h1]; exact List.mem_cons_self x xs
      · exact List.mem_cons_of_mem x h1
    · intro y hy
      rcases List.mem_cons.1 hy with rfl | hmem
      · exact (foldl_min_le xs y).1
      · exact (foldl_min_le xs x).2 y hmem

theorem listMax_spec {α : Type} [LinearOrder α] (l : List α) (h : l ≠ []) :
    ∃ m, listMax l = some m ∧ m ∈ l ∧ ∀ y ∈ l, y ≤ m := by
  cases l with
  | nil => exact absurd rfl h
  | cons x xs =>
    refine ⟨xs.foldl max x, rfl, ?_, ?_⟩
    · rcases foldl_max_mem xs x with h1 | h1
      · rw [h1]; exact List.mem_cons_self x xs
      · exact List.mem_cons_of_mem x h1
    · intro y hy
      rcases List.mem_cons.1 hy with rfl | hmem
      · exact (foldl_max_le xs y).1
      · exact (foldl_max_le xs x).2 y hmem

theorem linspace_head (a b : ℚ) (n : Nat) (h : n ≠ 0) :
    (linspace a b n).head? = some a := by
  cases n with
  | zero => exact absurd rfl h
  | succ m =>
    rw [linspace, List.range_succ_eq_map]
    simp

theorem linspace_getLast (a b : ℚ) (m : Nat) :
    (linspace a b (m + 1)).getLast? =
      some (a + (b - a) * (m : ℚ) / (((m + 1 : Nat) : ℚ) - 1)) := by
  rw [linspace, List.range_succ, List.map_append]
  simp

theorem linspace256_head (a b : ℚ) : (linspace a b 256).head? = some a :=
  linspace_head a b 256 (by norm_num)

theorem linspace256_getLast (a b : ℚ) : (linspace a b 256).getLast? = some b := by
  have h := linspace_getLast a b 255
  norm_num at h
  rw [h]

theorem colorStops_length (p : String → ℚ → Color) (nm : String) (vmin vmax : ℚ) :
    (colorStops p nm vmin vmax).length = 256 := by
  simp [colorStops, linspace]

theorem colorStops_head (p : String → ℚ → Color) (nm : String) (vmin vmax : ℚ) :
    (colorStops p nm vmin vmax).head? = some (p nm 0) := by
  rw [colorStops, List.head?_map, linspace256_head]
  simp [normalizeQ]

theorem colorStops_getLast (p : String → ℚ → Color) (nm : String) (vmin vmax : ℚ)
    (h : vmin < vmax) :
    (colorStops p nm vmin vmax).getLast? = some (p nm 1) := by
  rw [colorStops, List.getLast?_map, linspace256_getLast]
  simp only [Option.map_some']
  congr 2
  rw [normalizeQ, div_self (sub_ne_zero.mpr (ne_of_gt h))]

theorem linearColormapAt_low (stops : List Color) (vmin vmax x : ℚ)
    (hlen : stops.length = 256) (hx : x ≤ vmin) :
    linearColormapAt stops vmin vmax x = (stops.head?).getD ⟨0, 0, 0⟩ := by
  simp only [linearColormapAt, hlen]
  rw [linspace256_head]
  simp only [Option.getD_some]
  rw [if_pos hx]

theorem linearColormapAt_high (stops : List Color) (vmin vmax x : ℚ)
    (hlen : stops.length = 256) (hlt : vmin < vmax) (hx : vmax ≤ x) :
    linearColormapAt stops vmin vmax x = (stops.getLast?).getD ⟨0, 0, 0⟩ := by
  simp only [linearColormapAt, hlen]
  rw [linspace256_head, linspace256_getLast]
  simp only [Option.getD_some]
  rw [if_neg (not_le.mpr (lt_of_lt_of_le hlt hx)), if_pos hx]

theorem rowsToSamples_none_iff (l : List Row5) :
    rowsToSamples l = none ↔ ∃ r ∈ l, fieldTime r.1 = none := by
  induction l with
  | nil => simp [rowsToSamples]
  | cons r rest ih =>
    obtain ⟨t, la, lo, d, c⟩ := r
    constructor
    · intro h
      simp only [rowsToSamples] at h
      cases ht : fieldTime t with
      | none => exact ⟨(t, la, lo, d, c), List.mem_cons_self _ _, ht⟩
      | some tv =>
        rw [ht] at h
        cases hr : rowsToSamples rest with
        | none =>
          obtain ⟨r', hr', hfr'⟩ := ih.mp hr
          exact ⟨r', List.mem_cons_of_mem _ hr', hfr'⟩
        | some ss => rw [hr] at h; simp at h
    · rintro ⟨r', hr', hfr'⟩
      rcases List.mem_cons.1 hr' with rfl | hmem
      · simp only [rowsToSamples]
        rw [show fieldTime (t, la, lo, d, c).1 = none from hfr']
      · simp only [rowsToSamples]
        cases ht : fieldTime t with
        | none => rfl
        | some tv => rw [ih.mpr ⟨r', hmem, hfr'⟩]

theorem rowsToSamples_maps (l : List Row5) (ss : List Sample)
    (h : rowsToSamples l = some ss) :
    ss.map (fun s => some s.time) = l.map (fun r => fieldTime r.1)
  ∧ ss.map Sample.latitude = l.map (fun r => fieldNum r.2.1)
  ∧ ss.map Sample.longitude = l.map (fun r => fieldNum r.2.2.1)
  ∧ ss.map Sample.doseRate = l.map (fun r => fieldNum r.2.2.2.1)
  ∧ ss.map Sample.countRate = l.map (fun r => fieldNum r.2.2.2.2) := by
  induction l generalizing ss with
  | nil =>
    simp only [rowsToSamples] at h
    obtain rfl : ([] : List Sample) = ss := by
      injection h
    simp
  | cons r rest ih =>
    obtain ⟨t, la, lo, d, c⟩ := r
    simp only [rowsToSamples] at h
    cases ht : fieldTime t with
    | none => rw [ht] at h; exact absurd h (by simp)
    | some tv =>
      rw [ht] at h
      cases hr : rowsToSamples rest with
      | none => rw [hr] at h; exact absurd h (by simp)
      | some ss' =>
        rw [hr] at h
        obtain rfl :
            ((⟨tv, fieldNum la, fieldNum lo, fieldNum d, fieldNum c⟩ : Sample)
              :: ss') = ss := by
          injection h
        have ihm := ih ss' hr
        simp only [List.map_cons]
        exact ⟨by rw [ihm.1, ht], by rw [ihm.2.1], by rw [ihm.2.2.1],
               by rw [ihm.2.2.2.1], by rw [ihm.2.2.2.2]⟩

/-- `update_display` never touches the loaded dataset or the dataset
extrema: it only copies widgets, filters and re-renders. -/
theorem updateDisplay_preserves (p : String → ℚ → Color) (st : MapState) :
    (updateDisplay p st).1.loadedData = st.loadedData
  ∧ (updateDisplay p st).1.minTime = st.minTime
  ∧ (updateDisplay p st).1.maxTime = st.maxTime
  ∧ (updateDisplay p st).1.minDoseRate = st.minDoseRate
  ∧ (updateDisplay p st).1.maxDoseRate = st.maxDoseRate
  ∧ (updateDisplay p st).1.minCountRate = st.minCountRate
  ∧ (updateDisplay p st).1.maxCountRate = st.maxCountRate := by
  obtain ⟨ccn, ld, fd, ma, sta, sto, mnt, mxt, mnd, mxd, mnc, mxc, rd, rc,
    sam, sax, sar, ms, dfd, cd, ste, spe, cms, cxs⟩ := st
  simp only [updateDisplay]
  repeat' split
  all_goals simp

/-! ### Claim theorems -/

/-- Claim C4: the filter-and-render pipeline is deterministic: running
`update_display` a second time on the state it produced (all widget values
unchanged) yields exactly the same state — in particular the identical map
artifact — and the same outcome message. -/
theorem update_display_idempotent (p : String → ℚ → Color) (st : MapState) :
    updateDisplay p (updateDisplay p st).1 = updateDisplay p st := by
  obtain ⟨ccn, ld, fd, ma, sta, sto, mnt, mxt, mnd, mxd, mnc, mxc, rd, rc,
    sam, sax, sar, ms, dfd, cd, ste, spe, cms, cxs⟩ := st
  cases ld with
  | none => rfl
  | some data =>
    simp only [updateDisplay]
    by_cases h1 : cxs ≤ cms
    · simp [h1]
    · simp only [if_neg h1]
      cases sar with
      | none => simp [updateDisplay, h1]
      | some rng =>
        cases sam with
        | none => simp [updateDisplay, h1]
        | some amin =>
          by_cases h2 : (timeFilter data ste spe).isEmpty = true
          · simp [updateDisplay, h1, h2]
          · simp only [Bool.not_eq_true] at h2
            simp only [h2, Bool.false_eq_true, if_false]
            cases hlm : loadMap p cd dfd
                (qMean ((timeFilter data ste spe).map Sample.latitude))
                (qMean ((timeFilter data ste spe).map Sample.longitude))
                12 (some (timeFilter data ste spe)) dfd
                (some ((cms : ℚ) / 100 * rng + amin,
                       (cxs : ℚ) / 100 * rng + amin)) with
            | none => simp [updateDisplay, h1, h2, hlm]
            | some art => simp [updateDisplay, h1, h2, hlm]

/-- Claim C10: for every dataset and every time window (start, stop), the
Filtered View is exactly the order-preserving subsequence of the dataset's
samples whose time t satisfies start ≤ t ≤ stop; both boundaries are
inclusive, so a sample whose timestamp equals start or stop is retained. -/
theorem time_filter_is_inclusive_subsequence (xs : List Sample) (a b : Int) :
    (timeFilter xs a b).Sublist xs
  ∧ (∀ s, s ∈ timeFilter xs a b ↔ s ∈ xs ∧ a ≤ s.time ∧ s.time ≤ b)
  ∧ (∀ s : Sample, (timeFilter xs a b).count s =
      if a ≤ s.time ∧ s.time ≤ b then xs.count s else 0) := by
  refine ⟨List.filter_sublist xs, ?_, ?_⟩
  · intro s
    simp [timeFilter, List.mem_filter]
  · intro s
    by_cases hc : a ≤ s.time ∧ s.time ≤ b
    · rw [if_pos hc, timeFilter]
      exact List.count_filter (by simp [hc.1, hc.2])
    · rw [if_neg hc]
      rw [List.count_eq_zero]
      intro hmem
      rw [timeFilter, List.mem_filter] at hmem
      simp only [Bool.and_eq_true, decide_eq_true_eq] at hmem
      exact hc hmem.2

/-- Claim C7: for valueMin < valueMax, the value-to-color function of
`load_map` (the branca linear colormap over the 256 palette samples)
sends valueMin to the palette's first stop color (the palette at position
0), valueMax to the last stop color (the palette at position 1), and
clamps every out-of-range value to the corresponding boundary color with
no extrapolation. -/
theorem color_of_clamps_to_palette_endpoints (p : String → ℚ → Color)
    (nm : String) (vmin vmax : ℚ) (h : vmin < vmax) :
    (colorStops p nm vmin vmax).head? = some (p nm 0)
  ∧ (colorStops p nm vmin vmax).getLast? = some (p nm 1)
  ∧ linearColormapAt (colorStops p nm vmin vmax) vmin vmax vmin = p nm 0
  ∧ linearColormapAt (colorStops p nm vmin vmax) vmin vmax vmax = p nm 1
  ∧ (∀ v, v ≤ vmin →
      linearColormapAt (colorStops p nm vmin vmax) vmin vmax v = p nm 0)
  ∧ (∀ v, vmax ≤ v →
      linearColormapAt (colorStops p nm vmin vmax) vmin vmax v = p nm 1) := by
  have hlen := colorStops_length p nm vmin vmax
  have hhead := colorStops_head p nm vmin vmax
  have hlast := colorStops_getLast p nm vmin vmax h
  have hlow : ∀ v, v ≤ vmin →
      linearColormapAt (colorStops p nm vmin vmax) vmin vmax v = p nm 0 := by
    intro v hv
    rw [linearColormapAt_low _ _ _ _ hlen hv, hhead, Option.getD_some]
  have hhigh : ∀ v, vmax ≤ v →
      linearColormapAt (colorStops p nm vmin vmax) vmin vmax v = p nm 1 := by
    intro v hv
    rw [linearColormapAt_high _ _ _ _ hlen h hv, hlast, Option.getD_some]
  exact ⟨hhead, hlast, hlow vmin le_rfl, hhigh vmax le_rfl, hlow, hhigh⟩

/-- Claim C7 witness: over the window (0, 10) with a non-constant palette,
out-of-range values (-5 below, 27 above) get the clamped boundary colors,
which are the palette's first and last stop colors. -/
theorem color_of_clamps_witness :
    (0 : ℚ) < 10
  ∧ (colorStops palW "p" 0 10).head? = some (palW "p" 0)
  ∧ linearColormapAt (colorStops palW "p" 0 10) 0 10 (-5) = palW "p" 0
  ∧ linearColormapAt (colorStops palW "p" 0 10) 0 10 27 = palW "p" 1 := by
  have h := color_of_clamps_to_palette_endpoints palW "p" 0 10 (by norm_num)
  exact ⟨by norm_num, h.1, h.2.2.2.2.1 (-5) (by norm_num),
    h.2.2.2.2.2 27 (by norm_num)⟩

/-- On the success path, the value window the renderer uses for colors and
legend is exactly the slider window mapped through the stored
`setAbsoluteRange`/`setAbsoluteMin`, and the active metric becomes the
dropdown value. -/
theorem updateDisplay_success_legend (p : String → ℚ → Color) (st : MapState)
    (data : List Sample) (hld : st.loadedData = some data)
    (hsl : st.colorMinSlider < st.colorMaxSlider)
    (rng amin : ℚ) (hr : st.setAbsoluteRange = some rng)
    (hm : st.setAbsoluteMin = some amin)
    (hne : (timeFilter data st.startTimeEdit st.stopTimeEdit).isEmpty = false)
    (hlt : (st.colorMinSlider : ℚ) / 100 * rng + amin <
           (st.colorMaxSlider : ℚ) / 100 * rng + amin) :
    legendRange (updateDisplay p st).1.mapArtifact =
      some ((st.colorMinSlider : ℚ) / 100 * rng + amin,
            (st.colorMaxSlider : ℚ) / 100 * rng + amin)
  ∧ (updateDisplay p st).1.metricSelected = st.displayFieldDropdown := by
  obtain ⟨ccn, ld, fd, ma, sta, sto, mnt, mxt, mnd, mxd, mnc, mxc, rd, rc,
    sam, sax, sar, ms, dfd, cd, ste, spe, cms, cxs⟩ := st
  replace hld : ld = some data := hld
  subst hld
  replace hr : sar = some rng := hr
  replace hm : sam = some amin := hm
  subst hr
  subst hm
  replace hsl : cms < cxs := hsl
  replace hne : (timeFilter data ste spe).isEmpty = false := hne
  replace hlt : (cms : ℚ) / 100 * rng + amin < (cxs : ℚ) / 100 * rng + amin := hlt
  have h1' : ¬(cxs ≤ cms) := not_le.mpr hsl
  have h2' : ¬((cxs : ℚ) / 100 * rng + amin ≤ (cms : ℚ) / 100 * rng + amin) :=
    not_le.mpr hlt
  simp [updateDisplay, loadMap, legendRange, h1', h2', hne]

/-- Claim C1 (refuted by the code, spec is the intent): after loading
samples with extrema DoseRate (1, 3) and CountRate (10, 50) while DoseRate
was selected, then switching the metric dropdown to CountRate with the
sliders at (30, 70), `update_display` selects CountRate but maps the
sliders through the stale `setAbsoluteMin`/`setAbsoluteRange` of DoseRate
(only `select_file` recomputes them): the value window actually rendered
is (8/5, 12/5) = (1.6, 2.4), not the (22, 38) that the claimed affine map
onto the new metric's extrema (10, 50) requires. -/
theorem metric_switch_uses_stale_absolute_range :
    (updateDisplay cpal stC1).1.metricSelected = Metric.CountRate
  ∧ stC1.minCountRate = some 10
  ∧ stC1.maxCountRate = some 50
  ∧ legendRange (updateDisplay cpal stC1).1.mapArtifact = some (8/5, 12/5)
  ∧ ((30 : ℚ) / 100 * (50 - 10) + 10, (70 : ℚ) / 100 * (50 - 10) + 10)
      = ((22 : ℚ), 38)
  ∧ ((8 : ℚ)/5, (12 : ℚ)/5) ≠ ((22 : ℚ), 38) := by
  have hld : stC1.loadedData = some [sA, sB] := rfl
  have hsl : stC1.colorMinSlider < stC1.colorMaxSlider := by decide
  have hr : stC1.setAbsoluteRange = some ((3 : ℚ) - 1) := rfl
  have hm : stC1.setAbsoluteMin = some (1 : ℚ) := by decide
  have hne : (timeFilter [sA, sB] stC1.startTimeEdit stC1.stopTimeEdit).isEmpty
      = false := by decide
  have hlt : (stC1.colorMinSlider : ℚ) / 100 * ((3 : ℚ) - 1) + 1 <
      (stC1.colorMaxSlider : ℚ) / 100 * ((3 : ℚ) - 1) + 1 := by
    show (30 : ℚ) / 100 * ((3 : ℚ) - 1) + 1 <
      (70 : ℚ) / 100 * ((3 : ℚ) - 1) + 1
    norm_num
  have hleg := updateDisplay_success_legend cpal stC1 [sA, sB] hld hsl
    ((3 : ℚ) - 1) 1 hr hm hne hlt
  refine ⟨?_, by decide, by decide, ?_, by norm_num, by norm_num⟩
  · rw [hleg.2]; rfl
  · rw [hleg.1]
    show some ((30 : ℚ) / 100 * ((3 : ℚ) - 1) + 1,
               (70 : ℚ) / 100 * ((3 : ℚ) - 1) + 1) = some (8/5, 12/5)
    norm_num

/-- Claim C2 counterexample: with the time edits reversed (start 20 >
stop 3) and valid sliders, `update_display` does not signal the
invalid-range error (it signals the empty-view message instead), and it
does update the Selection State: the recorded time window changes from
(0, 10) to (20, 3). -/
theorem reversed_time_window_not_invalid_range :
    stC2.colorMinSlider < stC2.colorMaxSlider
  ∧ stC2.stopTimeEdit < stC2.startTimeEdit
  ∧ (updateDisplay cpal stC2).2 = some UpdateMsg.emptyView
  ∧ (updateDisplay cpal stC2).2 ≠ some UpdateMsg.invalidSliderRange
  ∧ (updateDisplay cpal stC2).1.startTime ≠ stC2.startTime
  ∧ (updateDisplay cpal stC2).1.stopTime ≠ stC2.stopTime := by
  decide

/-- Claim C2 as amended: only the relative value window is validated: if
slider min ≥ slider max the update is rejected with the invalid-range
message and the time window, filtered view and last rendered artifact are
left unchanged (the active metric and colormap are still refreshed from
the widgets).  A reversed time window is not separately validated: it
produces an empty filtered view, signalled as the empty-view message, with
the recorded time window updated to the reversed values and the last
rendered artifact unchanged. -/
theorem set_filters_validation (p : String → ℚ → Color) (st : MapState)
    (data : List Sample) (hld : st.loadedData = some data) :
    ( st.colorMaxSlider ≤ st.colorMinSlider →
        (updateDisplay p st).2 = some UpdateMsg.invalidSliderRange
      ∧ (updateDisplay p st).1.mapArtifact = st.mapArtifact
      ∧ (updateDisplay p st).1.startTime = st.startTime
      ∧ (updateDisplay p st).1.stopTime = st.stopTime
      ∧ (updateDisplay p st).1.filteredData = st.filteredData )
  ∧ ( st.colorMinSlider < st.colorMaxSlider →
      st.stopTimeEdit < st.startTimeEdit →
      ∀ rng amin, st.setAbsoluteRange = some rng →
        st.setAbsoluteMin = some amin →
        (updateDisplay p st).2 = some UpdateMsg.emptyView
      ∧ (updateDisplay p st).1.mapArtifact = st.mapArtifact
      ∧ (updateDisplay p st).1.startTime = some st.startTimeEdit
      ∧ (updateDisplay p st).1.stopTime = some st.stopTimeEdit ) := by
  obtain ⟨ccn, ld, fd, ma, sta, sto, mnt, mxt, mnd, mxd, mnc, mxc, rd, rc,
    sam, sax, sar, ms, dfd, cd, ste, spe, cms, cxs⟩ := st
  replace hld : ld = some data := hld
  subst hld
  constructor
  · intro h1
    replace h1 : cxs ≤ cms := h1
    simp [updateDisplay, h1]
  · intro h1 h2 rng amin hr hm
    replace hr : sar = some rng := hr
    replace hm : sam = some amin := hm
    subst hr
    subst hm
    replace h1 : cms < cxs := h1
    replace h2 : spe < ste := h2
    have h1' : ¬(cxs ≤ cms) := not_le.mpr h1
    have hemp : timeFilter data ste spe = [] := by
      rw [timeFilter, List.filter_eq_nil_iff]
      intro s hs
      simp only [Bool.and_eq_true, decide_eq_true_eq, not_and]
      intro h3 h4
      omega
    simp [updateDisplay, h1', hemp]

/-- Claim C2 witness: the amended behaviour at the concrete reversed-window
state. -/
theorem set_filters_validation_witness :
    stC2.loadedData = some [sA]
  ∧ stC2.colorMinSlider < stC2.colorMaxSlider
  ∧ stC2.stopTimeEdit < stC2.startTimeEdit
  ∧ stC2.setAbsoluteRange = some 2
  ∧ stC2.setAbsoluteMin = some 1
  ∧ (updateDisplay cpal stC2).2 = some UpdateMsg.emptyView
  ∧ (updateDisplay cpal stC2).1.mapArtifact = stC2.mapArtifact := by
  have h := set_filters_validation cpal stC2 [sA] rfl
  have h2 := h.2 (by decide) (by decide) 2 1 rfl rfl
  exact ⟨rfl, by decide, by decide, rfl, rfl, h2.1, h2.2.1⟩

/-- Claim C3: loading a second file appends its samples after the existing
ones in order, the sample count is the sum of the two counts, and every
per-metric and per-time extremum is recomputed as the min/max over the
full accumulated sequence. -/
theorem load_appends_and_recomputes_extrema (p : String → ℚ → Color)
    (st : MapState) (old new : List Sample)
    (hld : st.loadedData = some old) (hne : old ++ new ≠ []) :
    (selectFile p st new).1.loadedData = some (old ++ new)
  ∧ (old ++ new).length = old.length + new.length
  ∧ (∃ m, (selectFile p st new).1.minTime = some m
        ∧ m ∈ (old ++ new).map Sample.time
        ∧ ∀ y ∈ (old ++ new).map Sample.time, m ≤ y)
  ∧ (∃ m, (selectFile p st new).1.maxTime = some m
        ∧ m ∈ (old ++ new).map Sample.time
        ∧ ∀ y ∈ (old ++ new).map Sample.time, y ≤ m)
  ∧ (∃ m, (selectFile p st new).1.minDoseRate = some m
        ∧ m ∈ (old ++ new).map Sample.doseRate
        ∧ ∀ y ∈ (old ++ new).map Sample.doseRate, m ≤ y)
  ∧ (∃ m, (selectFile p st new).1.maxDoseRate = some m
        ∧ m ∈ (old ++ new).map Sample.doseRate
        ∧ ∀ y ∈ (old ++ new).map Sample.doseRate, y ≤ m)
  ∧ (∃ m, (selectFile p st new).1.minCountRate = some m
        ∧ m ∈ (old ++ new).map Sample.countRate
        ∧ ∀ y ∈ (old ++ new).map Sample.countRate, m ≤ y)
  ∧ (∃ m, (selectFile p st new).1.maxCountRate = some m
        ∧ m ∈ (old ++ new).map Sample.countRate
        ∧ ∀ y ∈ (old ++ new).map Sample.countRate, y ≤ m) := by
  have hneT : (old ++ new).map Sample.time ≠ [] := fun h => hne (by simpa using h)
  have hneD : (old ++ new).map Sample.doseRate ≠ [] :=
    fun h => hne (by simpa using h)
  have hneC : (old ++ new).map Sample.countRate ≠ [] :=
    fun h => hne (by simpa using h)
  obtain ⟨mT, hmT, hmTmem, hmTlb⟩ := listMin_spec _ hneT
  obtain ⟨xT, hxT, hxTmem, hxTub⟩ := listMax_spec _ hneT
  obtain ⟨mD, hmD, hmDmem, hmDlb⟩ := listMin_spec _ hneD
  obtain ⟨xD, hxD, hxDmem, hxDub⟩ := listMax_spec _ hneD
  obtain ⟨mC, hmC, hmCmem, hmClb⟩ := listMin_spec _ hneC
  obtain ⟨xC, hxC, hxCmem, hxCub⟩ := listMax_spec _ hneC
  have hproj : (selectFileLoad st new).loadedData = some (old ++ new)
      ∧ (selectFileLoad st new).minTime = some mT
      ∧ (selectFileLoad st new).maxTime = some xT
      ∧ (selectFileLoad st new).minDoseRate = some mD
      ∧ (selectFileLoad st new).maxDoseRate = some xD
      ∧ (selectFileLoad st new).minCountRate = some mC
      ∧ (selectFileLoad st new).maxCountRate = some xC := by
    simp only [selectFileLoad, hld]
    rw [hmT, hxT, hmD, hxD, hmC, hxC]
    exact ⟨rfl, rfl, rfl, rfl, rfl, rfl, rfl⟩
  have hpres := updateDisplay_preserves p (selectFileLoad st new)
  refine ⟨?_, List.length_append old new, ?_, ?_, ?_, ?_, ?_, ?_⟩
  · rw [selectFile, hpres.1, hproj.1]
  · exact ⟨mT, by rw [selectFile, hpres.2.1, hproj.2.1], hmTmem, hmTlb⟩
  · exact ⟨xT, by rw [selectFile, hpres.2.2.1, hproj.2.2.1], hxTmem, hxTub⟩
  · exact ⟨mD, by rw [selectFile, hpres.2.2.2.1, hproj.2.2.2.1], hmDmem, hmDlb⟩
  · exact ⟨xD, by rw [selectFile, hpres.2.2.2.2.1, hproj.2.2.2.2.1],
      hxDmem, hxDub⟩
  · exact ⟨mC, by rw [selectFile, hpres.2.2.2.2.2.1, hproj.2.2.2.2.2.1],
      hmCmem, hmClb⟩
  · exact ⟨xC, by rw [selectFile, hpres.2.2.2.2.2.2, hproj.2.2.2.2.2.2],
      hxCmem, hxCub⟩

/-- Claim C3 witness: loading `[sB]` on top of a state holding `[sA]`
appends in order. -/
theorem load_appends_witness :
    stA3.loadedData = some [sA]
  ∧ ([sA] ++ [sB] : List Sample) ≠ []
  ∧ (selectFile cpal stA3 [sB]).1.loadedData = some ([sA] ++ [sB]) := by
  refine ⟨rfl, by decide, ?_⟩
  exact (load_appends_and_recomputes_extrema cpal stA3 [sA] [sB] rfl
    (by decide)).1

/-- Claim C5 counterexample: `fileA` opens and its header carries four of
the five required columns (so not "none of the required columns"), yet the
parse fails; `fileB` carries all five columns and one row whose Time does
not parse — the claim says that row is merely dropped, yet the whole parse
fails. -/
theorem parse_failure_counterexample :
    parse_rctrk_file (some fileA) = none
  ∧ colIdx hdrA "Time" = some 0
  ∧ colIdx hdrA "Latitude" = some 1
  ∧ colIdx hdrA "Longitude" = some 2
  ∧ colIdx hdrA "DoseRate" = some 3
  ∧ parse_rctrk_file (some fileB) = none
  ∧ colIdx hdrB "CountRate" = some 4 := by
  decide

/-- Claim C5 as amended: the parser discards exactly one leading line and
takes the next line as the header; it fails when the file cannot be opened
or when any required column is missing; it drops exactly the rows with a
missing field; the parse fails if and only if (given the five columns) some
kept row's Time does not parse; on success the samples are the kept rows in
order, field by field. -/
theorem parse_behavior (pre header : RawLine) (rows : List RawLine)
    (iT iLa iLo iD iC : Nat)
    (hT : colIdx header "Time" = some iT)
    (hLa : colIdx header "Latitude" = some iLa)
    (hLo : colIdx header "Longitude" = some iLo)
    (hD : colIdx header "DoseRate" = some iD)
    (hC : colIdx header "CountRate" = some iC) :
    parse_rctrk_file none = none
  ∧ (∀ header' rows', colIdx header' "CountRate" = none →
      parse_rctrk_file (some (pre :: header' :: rows')) = none)
  ∧ (parse_rctrk_file (some (pre :: header :: rows)) = none ↔
      ∃ r ∈ (rows.map (fun r => projectRow r iT iLa iLo iD iC)).filter
        rowComplete, fieldTime r.1 = none)
  ∧ (∀ ss, parse_rctrk_file (some (pre :: header :: rows)) = some ss →
      ss.map (fun s => some s.time) =
        ((rows.map (fun r => projectRow r iT iLa iLo iD iC)).filter
          rowComplete).map (fun r => fieldTime r.1)
    ∧ ss.map Sample.doseRate =
        ((rows.map (fun r => projectRow r iT iLa iLo iD iC)).filter
          rowComplete).map (fun r => fieldNum r.2.2.2.1)
    ∧ ss.length =
        ((rows.map (fun r => projectRow r iT iLa iLo iD iC)).filter
          rowComplete).length) := by
  have hpar : parse_rctrk_file (some (pre :: header :: rows)) =
      rowsToSamples ((rows.map (fun r => projectRow r iT iLa iLo iD iC)).filter
        rowComplete) := by
    simp only [parse_rctrk_file]
    rw [hT, hLa, hLo, hD, hC]
  refine ⟨rfl, ?_, ?_, ?_⟩
  · intro header' rows' hC'
    simp only [parse_rctrk_file]
    cases hT' : colIdx header' "Time" <;>
      cases hLa' : colIdx header' "Latitude" <;>
        cases hLo' : colIdx header' "Longitude" <;>
          cases hD' : colIdx header' "DoseRate" <;>
            simp [hC']
  · rw [hpar]
    exact rowsToSamples_none_iff _
  · intro ss hss
    rw [hpar] at hss
    have hm := rowsToSamples_maps _ ss hss
    refine ⟨hm.1, hm.2.2.2.1, ?_⟩
    have := congrArg List.length hm.1
    simpa using this

/-- Claim C5 witness: a well-formed file with one complete row and one row
missing Latitude parses to exactly the complete row's sample. -/
theorem parse_behavior_witness :
    colIdx hdrB "Time" = some 0
  ∧ colIdx hdrB "Latitude" = some 1
  ∧ colIdx hdrB "Longitude" = some 2
  ∧ colIdx hdrB "DoseRate" = some 3
  ∧ colIdx hdrB "CountRate" = some 4
  ∧ parse_rctrk_file (some ([] :: hdrB :: [rowGood, rowMissingLat])) ≠ none
  ∧ ([(⟨100, 1, 2, 3, 4⟩ : Sample)] : List Sample).length =
      (([rowGood, rowMissingLat].map (fun r => projectRow r 0 1 2 3 4)).filter
        rowComplete).length := by
  have h := parse_behavior [] hdrB [rowGood, rowMissingLat] 0 1 2 3 4
    (by decide) (by decide) (by decide) (by decide) (by decide)
  refine ⟨by decide, by decide, by decide, by decide, by decide, ?_, ?_⟩
  · rw [Ne, h.2.2.1]
    decide
  · exact (h.2.2.2 [(⟨100, 1, 2, 3, 4⟩ : Sample)] (by decide)).2.2

/-- Claim C6 counterexample: clearing with the sliders at (30, 70) leaves
them at (30, 70); the relative value window is not reset to (0, 100). -/
theorem clear_does_not_reset_sliders :
    stC6.colorMinSlider = 30
  ∧ stC6.colorMaxSlider = 70
  ∧ (clearData cpal stC6 99).colorMinSlider = 30
  ∧ (clearData cpal stC6 99).colorMaxSlider = 70
  ∧ ¬((clearData cpal stC6 99).colorMinSlider = 0
      ∧ (clearData cpal stC6 99).colorMaxSlider = 100) := by
  decide

/-- Claim C6 as amended: `clear_data` empties the dataset, moves both
date-time edits to the current time (a degenerate window, not a full data
range — there is no data left), re-renders the bare basemap (no markers,
no legend), and leaves the slider positions unchanged. -/
theorem clear_resets_dataset_and_renders_bare_map (p : String → ℚ → Color)
    (st : MapState) (now : Int) :
    (clearData p st now).loadedData = none
  ∧ (clearData p st now).startTimeEdit = now
  ∧ (clearData p st now).stopTimeEdit = now
  ∧ (clearData p st now).colorMinSlider = st.colorMinSlider
  ∧ (clearData p st now).colorMaxSlider = st.colorMaxSlider
  ∧ (clearData p st now).mapArtifact =
      some { centerLat := 0, centerLon := 0, zoom := 2,
             markers := [], legend := none } :=
  ⟨rfl, rfl, rfl, rfl, rfl, rfl⟩

/-- Claim C8 counterexample: with a valid time window (10 < 20) that
contains no sample, `update_display` signals the empty-view message and
returns without rendering: the previously rendered artifact — which does
carry a marker — stays in place; no bare basemap is produced. -/
theorem empty_view_keeps_previous_artifact :
    stC8.startTimeEdit < stC8.stopTimeEdit
  ∧ (updateDisplay cpal stC8).2 = some UpdateMsg.emptyView
  ∧ (updateDisplay cpal stC8).1.mapArtifact = some prevArt
  ∧ prevArt.markers ≠ [] := by
  decide

/-- Claim C8 as amended: on an empty filtered view `update_display`
signals the empty-view message and does not render — the last artifact is
left unchanged (the filtered view is still recorded as empty); the bare
basemap with no markers and no legend is what `load_map` renders when it
is invoked with no data at all (initial startup and clear). -/
theorem empty_view_no_render (p : String → ℚ → Color) (st : MapState)
    (data : List Sample) (hld : st.loadedData = some data)
    (hsl : st.colorMinSlider < st.colorMaxSlider)
    (rng amin : ℚ) (hr : st.setAbsoluteRange = some rng)
    (hm : st.setAbsoluteMin = some amin)
    (hemp : timeFilter data st.startTimeEdit st.stopTimeEdit = []) :
    (updateDisplay p st).2 = some UpdateMsg.emptyView
  ∧ (updateDisplay p st).1.mapArtifact = st.mapArtifact
  ∧ (updateDisplay p st).1.filteredData = some []
  ∧ loadMap p st.currentColormapName st.metricSelected 0 0 2 none
      Metric.DoseRate none
      = some { centerLat := 0, centerLon := 0, zoom := 2,
               markers := [], legend := none } := by
  obtain ⟨ccn, ld, fd, ma, sta, sto, mnt, mxt, mnd, mxd, mnc, mxc, rd, rc,
    sam, sax, sar, ms, dfd, cd, ste, spe, cms, cxs⟩ := st
  replace hld : ld = some data := hld
  subst hld
  replace hr : sar = some rng := hr
  replace hm : sam = some amin := hm
  subst hr
  subst hm
  replace hemp : timeFilter data ste spe = [] := hemp
  have h1' : ¬(cxs ≤ cms) := not_le.mpr hsl
  refine ⟨?_, ?_, ?_, rfl⟩ <;> simp [updateDisplay, h1', hemp]

/-- Claim C8 witness: the amended behaviour at the concrete state with an
empty filtered view and a previously rendered artifact. -/
theorem empty_view_no_render_witness :
    stC8.loadedData = some [sA]
  ∧ stC8.colorMinSlider < stC8.colorMaxSlider
  ∧ stC8.setAbsoluteRange = some 2
  ∧ stC8.setAbsoluteMin = some 1
  ∧ timeFilter [sA] stC8.startTimeEdit stC8.stopTimeEdit = []
  ∧ (updateDisplay cpal stC8).2 = some UpdateMsg.emptyView
  ∧ (updateDisplay cpal stC8).1.mapArtifact = stC8.mapArtifact
  ∧ loadMap cpal stC8.currentColormapName stC8.metricSelected 0 0 2 none
      Metric.DoseRate none
      = some { centerLat := 0, centerLon := 0, zoom := 2,
               markers := [], legend := none } := by
  have h := empty_view_no_render cpal stC8 [sA] rfl (by decide) 2 1 rfl rfl
    (by decide)
  exact ⟨rfl, by decide, rfl, rfl, by decide, h.1, h.2.1, h.2.2.2⟩

/-- Claim C9 counterexample: with the loaded data holding times (2, 1) in
insertion order, the time-series chart presents its points as
[(2, 3), (1, 7)] — the x-series is (2, 1), not sorted ascending: the
renderer does not sort by time before charting. -/
theorem time_plot_chart_not_sorted :
    showTimePlot stC9 = some [((2 : Int), (3 : ℚ)), (1, 7)]
  ∧ (showTimePlot stC9).map (fun l => l.map Prod.fst) = some [2, 1]
  ∧ ¬((2 : Int) ≤ 1) := by
  decide

/-- Claim C9 as amended: the time-series renderer charts the filtered
samples in the filtered view's insertion order without sorting; whenever
the loaded data is itself time-sorted the chart is chronological, and
every chart point is the (time, metric value) pair of a loaded sample. -/
theorem time_plot_insertion_order (st : MapState) (data : List Sample)
    (hld : st.loadedData = some data)
    (hs : List.Pairwise (fun a b : Sample => a.time ≤ b.time) data) :
    ∀ ch, showTimePlot st = some ch →
      List.Pairwise (fun u v : Int × ℚ => u.1 ≤ v.1) ch
    ∧ ∀ pt ∈ ch, ∃ s ∈ data, pt = (s.time, s.metricValue st.metricSelected) := by
  intro ch hch
  simp only [showTimePlot, hld] at hch
  by_cases he : (timeFilter data st.startTimeEdit st.stopTimeEdit).isEmpty = true
  · simp [he] at hch
  · simp only [he, Bool.false_eq_true, if_false, Option.some.injEq] at hch
    subst hch
    constructor
    · rw [plotData, List.pairwise_map]
      exact hs.filter _
    · intro pt hpt
      rw [plotData, List.mem_map] at hpt
      obtain ⟨s, hsmem, rfl⟩ := hpt
      exact ⟨s, List.mem_of_mem_filter hsmem, rfl⟩

/-- Claim C9 witness: on time-sorted loaded data the chart is
chronological. -/
theorem time_plot_insertion_order_witness :
    stC9s.loadedData = some [sT1, sT2]
  ∧ List.Pairwise (fun a b : Sample => a.time ≤ b.time) [sT1, sT2]
  ∧ List.Pairwise (fun u v : Int × ℚ => u.1 ≤ v.1) [((1 : Int), (7 : ℚ)), (2, 3)] := by
  have h := time_plot_insertion_order stC9s [sT1, sT2] rfl (by decide)
    [((1 : Int), (7 : ℚ)), (2, 3)] (by decide)
  exact ⟨rfl, by decide, h.1⟩

end RadiaCode
